import Mathlib

/-!
Verification of the provider-registry layer and the HTTP service wrappers
of the Jane web client (`src/lib/providerRegistry.ts`,
`src/services/ai/pollinations.ts`, `src/services/uploads/imgbb.ts`).

The TypeScript source is shallowly embedded: the registry's `Map` and `Set`
are modelled as association lists with JavaScript `Map`/`Set` semantics
(insertion order, replace-in-place, reference identity for callbacks, which
are modelled by numeric identifiers), listener invocation is recorded as an
explicit notification trace, and fallible paths return `Except`.
-/

namespace Jane

/-- One entry of a provider's `settings` array (UI-facing configuration
schema; the registry treats it opaquely). -/
structure ProviderSetting where
  key : String
  title : String
  description : String
  controller_type : String
deriving DecidableEq

/-- One entry of a provider's optional `models` catalog. -/
structure ModelInfo where
  id : String
  name : String
  version : String
  description : String
  capabilities : List String
deriving DecidableEq

/-- One `{header, value}` pair of `custom_header`. -/
structure ProviderCustomHeader where
  header : String
  value : String
deriving DecidableEq

/-- `ProviderTemplate` from `providerRegistry.ts`: connection info and
configuration schema of one provider. `provider` is the registry key. -/
structure ProviderTemplate where
  provider : String
  active : Option Bool := none
  api_key : Option String := none
  base_url : String
  explore_models_url : Option String := none
  settings : List ProviderSetting
  models : Option (List ModelInfo) := none
  persist : Option Bool := none
  custom_header : Option (List ProviderCustomHeader) := none
deriving DecidableEq

/-! ### JavaScript `Map` semantics over an association list

A JS `Map` iterates in insertion order; `set` on an existing key replaces
the value in place, otherwise appends; `delete` removes the entry. -/

/-- JS `Map.has`. -/
def mapHas (m : List (String × α)) (k : String) : Bool :=
  m.any fun p => decide (p.1 = k)

/-- JS `Map.get` (`none` plays the role of `undefined`). -/
def mapGet (m : List (String × α)) (k : String) : Option α :=
  (m.find? fun p => decide (p.1 = k)).map fun p => p.2

/-- JS `Map.set`: replace in place when the key exists, else append. -/
def mapSet (m : List (String × α)) (k : String) (v : α) : List (String × α) :=
  if mapHas m k then m.map (fun p => if p.1 = k then (k, v) else p)
  else m ++ [(k, v)]

/-- JS `Map.delete`. -/
def mapDelete (m : List (String × α)) (k : String) : List (String × α) :=
  m.filter fun p => decide (¬p.1 = k)

/-! ### JavaScript `Set` semantics for the listener set

`providerLoadCallbacks : Set<() => void>` holds callbacks by reference
identity; we model a callback reference as a `Nat` identifier. `add` of an
element already present is a no-op; `delete` removes the element. -/

/-- JS `Set.add`. -/
def setAdd (s : List Nat) (x : Nat) : List Nat :=
  if s.contains x then s else s ++ [x]

/-- JS `Set.delete`. -/
def setDelete (s : List Nat) (x : Nat) : List Nat :=
  s.filter fun y => decide (¬y = x)

/-- The mutable fields of the `ProviderRegistry` singleton. -/
structure RegistryState where
  externalProviders : List (String × ProviderTemplate)
  providerLoadCallbacks : List Nat
deriving DecidableEq

/-- The state built by the private constructor: both fields empty. -/
def registryEmpty : RegistryState := ⟨[], []⟩

/-- Outcome of invoking one listener during a notification batch: the
source wraps each call in `try`/`catch`, so a throwing listener is caught
(and logged) rather than propagated. -/
inductive ListenerOutcome where
  | ok : ListenerOutcome
  | errorCaught : ListenerOutcome
deriving DecidableEq

/-- The trace of one notification batch: each subscribed listener, in set
iteration order, with the outcome of its invocation. -/
abbrev NotifyBatch := List (Nat × ListenerOutcome)

/-- `notifyListeners`: `forEach` over the callback set with a per-listener
`try`/`catch`. `thr c = true` means listener `c` throws when invoked. The
function is total: no exception escapes the batch. -/
def notifyListeners (thr : Nat → Bool) (s : RegistryState) : NotifyBatch :=
  s.providerLoadCallbacks.map fun c =>
    (c, if thr c then ListenerOutcome.errorCaught else ListenerOutcome.ok)

/-- `registerProvider`: insert or replace under `t.provider`, then notify
once. The second component lists the notification batches triggered. -/
def registerProvider (thr : Nat → Bool) (t : ProviderTemplate)
    (s : RegistryState) : RegistryState × List NotifyBatch :=
  let s' : RegistryState :=
    { s with externalProviders := mapSet s.externalProviders t.provider t }
  (s', [notifyListeners thr s'])

/-- `registerProviders`: insert or replace each template in order, then
notify once for the whole batch. -/
def registerProviders (thr : Nat → Bool) (ts : List ProviderTemplate)
    (s : RegistryState) : RegistryState × List NotifyBatch :=
  let s' : RegistryState :=
    { s with externalProviders :=
        ts.foldl (fun m t => mapSet m t.provider t) s.externalProviders }
  (s', [notifyListeners thr s'])

/-- `getRegisteredProviders`: snapshot of the map's values. -/
def getRegisteredProviders (s : RegistryState) : List ProviderTemplate :=
  s.externalProviders.map fun p => p.2

/-- `getProvider`: lookup by name, `none` for a missing key. -/
def getProvider (s : RegistryState) (name : String) : Option ProviderTemplate :=
  mapGet s.externalProviders name

/-- `hasProvider`: membership test. -/
def hasProvider (s : RegistryState) (name : String) : Bool :=
  mapHas s.externalProviders name

/-- `unregisterProvider`: delete (a no-op on an absent key), then notify
once unconditionally. -/
def unregisterProvider (thr : Nat → Bool) (name : String)
    (s : RegistryState) : RegistryState × List NotifyBatch :=
  let s' : RegistryState :=
    { s with externalProviders := mapDelete s.externalProviders name }
  (s', [notifyListeners thr s'])

/-- `clearAll`: empty the map, then notify once unconditionally. -/
def clearAll (thr : Nat → Bool) (s : RegistryState) :
    RegistryState × List NotifyBatch :=
  let s' : RegistryState := { s with externalProviders := [] }
  (s', [notifyListeners thr s'])

/-- `onProvidersChanged`: add the callback to the `Set`. The unsubscribe
closure the source returns performs `unsubscribe` below for the same
callback reference. -/
def onProvidersChanged (c : Nat) (s : RegistryState) : RegistryState :=
  { s with providerLoadCallbacks := setAdd s.providerLoadCallbacks c }

/-- The unsubscribe closure returned by `onProvidersChanged`: `Set.delete`
of the callback reference. -/
def unsubscribe (c : Nat) (s : RegistryState) : RegistryState :=
  { s with providerLoadCallbacks := setDelete s.providerLoadCallbacks c }

/-! ### Claim C2: replace semantics of double registration -/

/-- Claim C2: starting from the empty registry, registering `t1` and then
`t2` with the same `provider` key leaves exactly one entry: the snapshot is
the one-element list `[t2]` (so its length is 1) and lookup of the key
returns the second registration. -/
theorem registerProvider_replaces (thr : Nat → Bool) (t1 t2 : ProviderTemplate)
    (h : t1.provider = t2.provider) :
    getRegisteredProviders
        (registerProvider thr t2 (registerProvider thr t1 registryEmpty).1).1
      = [t2] ∧
    getProvider
        (registerProvider thr t2 (registerProvider thr t1 registryEmpty).1).1
        t2.provider
      = some t2 := by
  simp [registerProvider, registryEmpty, getRegisteredProviders, getProvider,
    mapSet, mapHas, mapGet, h]

/-- A first concrete template for witnesses. -/
def tmplA : ProviderTemplate :=
  { provider := "p", base_url := "https://a.example", settings := [] }

/-- A second template under the same key, differing in `base_url`. -/
def tmplB : ProviderTemplate :=
  { provider := "p", base_url := "https://b.example", settings := [] }

/-- Witness for C2 at the concrete pair `tmplA`, `tmplB`. -/
theorem registerProvider_replaces_witness :
    getRegisteredProviders
        (registerProvider (fun _ => false) tmplB
          (registerProvider (fun _ => false) tmplA registryEmpty).1).1
      = [tmplB] ∧
    getProvider
        (registerProvider (fun _ => false) tmplB
          (registerProvider (fun _ => false) tmplA registryEmpty).1).1
        tmplB.provider
      = some tmplB :=
  registerProvider_replaces (fun _ => false) tmplA tmplB rfl

/-! ### Helper lemmas about the JS map, set and notification embeddings -/

/-- Pointwise-equal predicates give equal `any`. -/
theorem listAnyCongr {l : List α} {p q : α → Bool} (h : ∀ x ∈ l, p x = q x) :
    l.any p = l.any q := by
  induction l with
  | nil => rfl
  | cons x xs ih =>
    simp only [List.any_cons, h x (List.mem_cons_self x xs),
      ih fun y hy => h y (List.mem_cons_of_mem x hy)]

/-- After `Map.set m k v`, the key `k` is present. -/
theorem mapHas_mapSet_self (m : List (String × α)) (k : String) (v : α) :
    mapHas (mapSet m k v) k = true := by
  by_cases hk : mapHas m k = true
  · rw [mapSet, if_pos hk]
    simp only [mapHas, List.any_eq_true, decide_eq_true_eq] at hk ⊢
    rcases hk with ⟨p, hp, hpk⟩
    exact ⟨(k, v), List.mem_map.mpr ⟨p, hp, by simp [hpk]⟩, rfl⟩
  · rw [mapSet, if_neg hk]
    simp [mapHas, List.any_append]

/-- `Map.set m k v` leaves presence of every other key unchanged. -/
theorem mapHas_mapSet_ne (m : List (String × α)) (k k' : String) (v : α)
    (h : ¬k' = k) :
    mapHas (mapSet m k v) k' = mapHas m k' := by
  have h1 : ¬k = k' := fun hkk => h hkk.symm
  by_cases hk : mapHas m k = true
  · rw [mapSet, if_pos hk]
    simp only [mapHas, List.any_map]
    refine listAnyCongr fun p _ => ?_
    by_cases hp : p.1 = k
    · have h2 : ¬p.1 = k' := by rw [hp]; exact h1
      simp [Function.comp, hp, h1, h2]
    · simp [Function.comp, hp]
  · rw [mapSet, if_neg hk]
    simp [mapHas, List.any_append, h1]

/-- Presence after `Map.set`: the new key, or anything present before. -/
theorem mapHas_mapSet (m : List (String × α)) (k k' : String) (v : α) :
    mapHas (mapSet m k v) k' = (decide (k' = k) || mapHas m k') := by
  by_cases h : k' = k
  · subst h
    simp [mapHas_mapSet_self]
  · simp [mapHas_mapSet_ne m k k' v h, h]

/-- `Map.has` agrees with definedness of `Map.get`. -/
theorem mapHas_eq_isSome_mapGet (m : List (String × α)) (k : String) :
    mapHas m k = (mapGet m k).isSome := by
  induction m with
  | nil => rfl
  | cons p m ih =>
    by_cases h : p.1 = k
    · simp only [mapHas, List.any_cons, mapGet]
      rw [List.find?_cons_of_pos _ (by simp [h])]
      simp [h]
    · simp only [mapHas, mapGet] at ih
      simp only [mapHas, List.any_cons, mapGet]
      rw [List.find?_cons_of_neg _ (by simp [h])]
      simp [h, ih]

/-- `Map.delete` removes the key. -/
theorem mapHas_mapDelete_self (m : List (String × α)) (k : String) :
    mapHas (mapDelete m k) k = false := by
  rw [mapHas, List.any_eq_false]
  intro p hp
  have := List.of_mem_filter hp
  simp only [decide_eq_true_eq] at this ⊢
  exact fun hpk => this hpk

/-- `Map.delete` of an absent key is the identity. -/
theorem mapDelete_of_not_has (m : List (String × α)) (k : String)
    (h : mapHas m k = false) :
    mapDelete m k = m := by
  apply List.filter_eq_self.mpr
  intro p hp
  rw [mapHas, List.any_eq_false] at h
  have := h p hp
  simp only [decide_eq_true_eq] at this ⊢
  exact fun hpk => this hpk

/-- Registered keys survive the rest of a batch registration. -/
theorem mapHas_foldl_registers (ts : List ProviderTemplate)
    (m : List (String × ProviderTemplate)) (k : String)
    (h : mapHas m k = true) :
    mapHas (ts.foldl (fun acc t => mapSet acc t.provider t) m) k = true := by
  induction ts generalizing m with
  | nil => exact h
  | cons t ts ih =>
    simp only [List.foldl_cons]
    exact ih _ (by rw [mapHas_mapSet]; simp [h])

/-- Every template in a batch registration ends up present. -/
theorem mapHas_foldl_of_mem (ts : List ProviderTemplate)
    (m : List (String × ProviderTemplate)) (t : ProviderTemplate)
    (h : t ∈ ts) :
    mapHas (ts.foldl (fun acc t => mapSet acc t.provider t) m) t.provider
      = true := by
  induction ts generalizing m with
  | nil => cases h
  | cons t' ts ih =>
    simp only [List.foldl_cons]
    rcases List.mem_cons.mp h with h | h
    · subst h
      exact mapHas_foldl_registers ts _ _ (mapHas_mapSet_self m t.provider t)
    · exact ih _ h

/-- The listeners named by a notification batch are exactly the subscribed
callback set, in order. -/
theorem notifyListeners_fst (thr : Nat → Bool) (s : RegistryState) :
    (notifyListeners thr s).map Prod.fst = s.providerLoadCallbacks := by
  simp only [notifyListeners]
  induction s.providerLoadCallbacks with
  | nil => rfl
  | cons c cs ih => simp [ih]

/-! ### Claim C3: batch registration notifies once -/

/-- Claim C3: for every template sequence (empty included),
`registerProviders` registers every element and triggers exactly one
notification batch, in which each currently subscribed listener is invoked
exactly once — never once per element. -/
theorem registerProviders_notifies_once (thr : Nat → Bool)
    (ts : List ProviderTemplate) (s : RegistryState)
    (hnd : s.providerLoadCallbacks.Nodup) :
    (registerProviders thr ts s).2.length = 1 ∧
    (∀ t ∈ ts, hasProvider (registerProviders thr ts s).1 t.provider = true) ∧
    ∀ c ∈ s.providerLoadCallbacks,
      (((registerProviders thr ts s).2.flatten).map Prod.fst).count c = 1 := by
  refine ⟨rfl, ?_, ?_⟩
  · intro t ht
    exact mapHas_foldl_of_mem ts s.externalProviders t ht
  · intro c hc
    have htr : ((registerProviders thr ts s).2.flatten).map Prod.fst
        = s.providerLoadCallbacks := by
      simp [registerProviders, notifyListeners_fst]
    rw [htr]
    exact List.count_eq_one_of_mem hnd hc

/-- A registry state with two subscribed listeners (ids 0 and 1), used by
concrete witnesses. -/
def stateTwoListeners : RegistryState :=
  onProvidersChanged 1 (onProvidersChanged 0 registryEmpty)

/-- Witness for C3 at a concrete two-template batch and two listeners. -/
theorem registerProviders_notifies_once_witness :
    (registerProviders (fun _ => false) [tmplA, tmplB] stateTwoListeners).2.length
        = 1 ∧
    (∀ t ∈ [tmplA, tmplB],
      hasProvider
          (registerProviders (fun _ => false) [tmplA, tmplB] stateTwoListeners).1
          t.provider = true) ∧
    ∀ c ∈ stateTwoListeners.providerLoadCallbacks,
      (((registerProviders (fun _ => false) [tmplA, tmplB]
          stateTwoListeners).2.flatten).map Prod.fst).count c = 1 :=
  registerProviders_notifies_once (fun _ => false) [tmplA, tmplB]
    stateTwoListeners (by decide)

/-! ### Claim C4: double subscription of the same callback reference -/

/-- Counterexample for C4: subscribing the same callback reference (id 0)
twice collapses into a single `Set` entry, so after one unsubscribe the next
mutation notifies nobody — the batch of `registerProvider` is empty, the
callback is not invoked. -/
theorem onProvidersChanged_twice_counterexample :
    (registerProvider (fun _ => false) tmplA
        (unsubscribe 0
          (onProvidersChanged 0 (onProvidersChanged 0 registryEmpty)))).2
      = [[]] := by
  decide

/-- Claim C4 amended: the callback store is a JS `Set`, so a second
subscription of the same callback reference is absorbed (one entry, not
two); the unsubscribe handle of either call deletes that single entry, and
afterwards the callback is not invoked on the next registry mutation. -/
theorem onProvidersChanged_set_semantics (thr : Nat → Bool) (c : Nat)
    (s : RegistryState) (t : ProviderTemplate)
    (h : c ∉ s.providerLoadCallbacks) :
    (onProvidersChanged c (onProvidersChanged c s)).providerLoadCallbacks.count c
        = 1 ∧
    (unsubscribe c
        (onProvidersChanged c (onProvidersChanged c s))).providerLoadCallbacks.count c
        = 0 ∧
    ∀ out : ListenerOutcome,
      (c, out) ∉
        (registerProvider thr t
          (unsubscribe c
            (onProvidersChanged c (onProvidersChanged c s)))).2.flatten := by
  have h1 : setAdd s.providerLoadCallbacks c = s.providerLoadCallbacks ++ [c] := by
    rw [setAdd, if_neg (by simpa using h)]
  have h2 : setAdd (s.providerLoadCallbacks ++ [c]) c
      = s.providerLoadCallbacks ++ [c] := by
    rw [setAdd, if_pos (by simp)]
  have hadd : (onProvidersChanged c
      (onProvidersChanged c s)).providerLoadCallbacks
      = s.providerLoadCallbacks ++ [c] := by
    simp only [onProvidersChanged]
    rw [h1, h2]
  have hdel : (unsubscribe c (onProvidersChanged c
      (onProvidersChanged c s))).providerLoadCallbacks
      = setDelete (s.providerLoadCallbacks ++ [c]) c := by
    simp only [unsubscribe]
    rw [hadd]
  have hnotmem : c ∉ setDelete (s.providerLoadCallbacks ++ [c]) c := by
    intro hmem
    have := List.of_mem_filter hmem
    simp at this
  refine ⟨?_, ?_, ?_⟩
  · rw [hadd, List.count_append]
    simp [List.count_eq_zero.mpr h]
  · rw [hdel, List.count_eq_zero]
    exact hnotmem
  · intro out hmem
    simp only [registerProvider, notifyListeners, List.flatten_cons,
      List.flatten_nil, List.append_nil] at hmem
    rcases List.mem_map.mp hmem with ⟨c', hc', heq⟩
    have hcc : c' = c := congrArg Prod.fst heq
    subst hcc
    rw [hdel] at hc'
    exact hnotmem hc'

/-- Witness for C4's amended theorem at callback id 0 over the empty
registry. -/
theorem onProvidersChanged_set_semantics_witness :
    (onProvidersChanged 0 (onProvidersChanged 0 registryEmpty)).providerLoadCallbacks.count 0
        = 1 ∧
    (unsubscribe 0
        (onProvidersChanged 0 (onProvidersChanged 0 registryEmpty))).providerLoadCallbacks.count 0
        = 0 ∧
    ∀ out : ListenerOutcome,
      (0, out) ∉
        (registerProvider (fun _ => false) tmplA
          (unsubscribe 0
            (onProvidersChanged 0 (onProvidersChanged 0 registryEmpty)))).2.flatten :=
  onProvidersChanged_set_semantics (fun _ => false) 0 registryEmpty tmplA
    (by decide)

/-! ### Claim C5: a throwing listener never hides the others -/

/-- A subscribed listener is invoked (appears in the batch) with the
outcome its behaviour dictates. -/
theorem mem_notifyListeners (thr : Nat → Bool) (s : RegistryState) (j : Nat)
    (hj : j ∈ s.providerLoadCallbacks) :
    (j, if thr j then ListenerOutcome.errorCaught else ListenerOutcome.ok)
      ∈ notifyListeners thr s :=
  List.mem_map.mpr ⟨j, hj, rfl⟩

/-- Claim C5: when some subscribed listener `i` throws during notification,
each of the four mutators still invokes every subscribed listener in its
single batch, and the thrower's exception is caught (recorded as
`errorCaught`, never propagated: the mutators are total functions). -/
theorem listener_throw_isolated (thr : Nat → Bool) (s : RegistryState)
    (t : ProviderTemplate) (ts : List ProviderTemplate) (name : String)
    (i : Nat) (hi : i ∈ s.providerLoadCallbacks) (hthr : thr i = true) :
    (∀ j ∈ s.providerLoadCallbacks,
      (j, if thr j then ListenerOutcome.errorCaught else ListenerOutcome.ok)
        ∈ (registerProvider thr t s).2.flatten) ∧
    (∀ j ∈ s.providerLoadCallbacks,
      (j, if thr j then ListenerOutcome.errorCaught else ListenerOutcome.ok)
        ∈ (registerProviders thr ts s).2.flatten) ∧
    (∀ j ∈ s.providerLoadCallbacks,
      (j, if thr j then ListenerOutcome.errorCaught else ListenerOutcome.ok)
        ∈ (unregisterProvider thr name s).2.flatten) ∧
    (∀ j ∈ s.providerLoadCallbacks,
      (j, if thr j then ListenerOutcome.errorCaught else ListenerOutcome.ok)
        ∈ (clearAll thr s).2.flatten) ∧
    (i, ListenerOutcome.errorCaught) ∈ (registerProvider thr t s).2.flatten := by
  have hflat : ∀ b : NotifyBatch, ([b] : List NotifyBatch).flatten = b := by
    intro b
    simp
  refine ⟨?_, ?_, ?_, ?_, ?_⟩
  · intro j hj
    rw [registerProvider, hflat]
    exact mem_notifyListeners thr _ j hj
  · intro j hj
    rw [registerProviders, hflat]
    exact mem_notifyListeners thr _ j hj
  · intro j hj
    rw [unregisterProvider, hflat]
    exact mem_notifyListeners thr _ j hj
  · intro j hj
    rw [clearAll, hflat]
    exact mem_notifyListeners thr _ j hj
  · rw [registerProvider, hflat]
    have := mem_notifyListeners thr
      { s with externalProviders := mapSet s.externalProviders t.provider t }
      i hi
    rw [hthr] at this
    simpa using this

/-- Witness for C5: listener 0 throws, listener 1 is still invoked. -/
theorem listener_throw_isolated_witness :
    (∀ j ∈ stateTwoListeners.providerLoadCallbacks,
      (j, if (fun n => decide (n = 0)) j then ListenerOutcome.errorCaught
          else ListenerOutcome.ok)
        ∈ (registerProvider (fun n => decide (n = 0)) tmplA
            stateTwoListeners).2.flatten) ∧
    (∀ j ∈ stateTwoListeners.providerLoadCallbacks,
      (j, if (fun n => decide (n = 0)) j then ListenerOutcome.errorCaught
          else ListenerOutcome.ok)
        ∈ (registerProviders (fun n => decide (n = 0)) [tmplA, tmplB]
            stateTwoListeners).2.flatten) ∧
    (∀ j ∈ stateTwoListeners.providerLoadCallbacks,
      (j, if (fun n => decide (n = 0)) j then ListenerOutcome.errorCaught
          else ListenerOutcome.ok)
        ∈ (unregisterProvider (fun n => decide (n = 0)) "p"
            stateTwoListeners).2.flatten) ∧
    (∀ j ∈ stateTwoListeners.providerLoadCallbacks,
      (j, if (fun n => decide (n = 0)) j then ListenerOutcome.errorCaught
          else ListenerOutcome.ok)
        ∈ (clearAll (fun n => decide (n = 0)) stateTwoListeners).2.flatten) ∧
    (0, ListenerOutcome.errorCaught)
      ∈ (registerProvider (fun n => decide (n = 0)) tmplA
          stateTwoListeners).2.flatten :=
  listener_throw_isolated (fun n => decide (n = 0)) stateTwoListeners tmplA
    [tmplA, tmplB] "p" 0 (by decide) (by decide)

/-! ### Claim C6: unregister is a notifying no-op on absent keys -/

/-- Claim C6: `unregisterProvider` removes the entry when present and is a
no-op (never an error) when absent; in both cases it triggers exactly one
notification batch in which each subscribed listener is invoked exactly
once — even when nothing was removed. -/
theorem unregisterProvider_removes_and_notifies (thr : Nat → Bool)
    (name : String) (s : RegistryState)
    (hnd : s.providerLoadCallbacks.Nodup) :
    hasProvider (unregisterProvider thr name s).1 name = false ∧
    (hasProvider s name = false →
      (unregisterProvider thr name s).1.externalProviders
        = s.externalProviders) ∧
    (unregisterProvider thr name s).2.length = 1 ∧
    ∀ c ∈ s.providerLoadCallbacks,
      (((unregisterProvider thr name s).2.flatten).map Prod.fst).count c = 1 := by
  refine ⟨?_, ?_, rfl, ?_⟩
  · exact mapHas_mapDelete_self s.externalProviders name
  · intro habs
    exact mapDelete_of_not_has s.externalProviders name habs
  · intro c hc
    have htr : ((unregisterProvider thr name s).2.flatten).map Prod.fst
        = s.providerLoadCallbacks := by
      simp [unregisterProvider, notifyListeners_fst]
    rw [htr]
    exact List.count_eq_one_of_mem hnd hc

/-- Witness for C6: unregistering the absent key `"ghost"` with two
listeners subscribed. -/
theorem unregisterProvider_removes_and_notifies_witness :
    hasProvider
        (unregisterProvider (fun _ => false) "ghost" stateTwoListeners).1
        "ghost" = false ∧
    (hasProvider stateTwoListeners "ghost" = false →
      (unregisterProvider (fun _ => false) "ghost"
          stateTwoListeners).1.externalProviders
        = stateTwoListeners.externalProviders) ∧
    (unregisterProvider (fun _ => false) "ghost" stateTwoListeners).2.length
        = 1 ∧
    ∀ c ∈ stateTwoListeners.providerLoadCallbacks,
      (((unregisterProvider (fun _ => false) "ghost"
          stateTwoListeners).2.flatten).map Prod.fst).count c = 1 :=
  unregisterProvider_removes_and_notifies (fun _ => false) "ghost"
    stateTwoListeners (by decide)

/-! ### Raw JSON-like values and the config loader

`loadProvidersFromConfig` validates data that may come from `JSON.parse`,
so its input is modelled as an untyped JavaScript value, not as a
`ProviderTemplate`. Property access on `null`/`undefined` throws a
`TypeError` in JavaScript; on any other non-object it yields `undefined`. -/

/-- An untyped JavaScript value (the possible results of `JSON.parse`,
plus `undefined`). -/
inductive RVal where
  | vstr : String → RVal
  | vnum : Int → RVal
  | vbool : Bool → RVal
  | vnull : RVal
  | vundefined : RVal
  | varr : List RVal → RVal
  | vobj : List (String × RVal) → RVal

/-- JS truthiness test (`!v` is the negation). -/
def jsFalsy : RVal → Bool
  | .vstr s => decide (s = "")
  | .vnum n => decide (n = 0)
  | .vbool b => !b
  | .vnull => true
  | .vundefined => true
  | .varr _ => false
  | .vobj _ => false

/-- JS property access `v[name]`: a `TypeError` on `null`/`undefined`,
the field (or `undefined`) on an object, `undefined` on any other value. -/
def jsGet (v : RVal) (name : String) : Except String RVal :=
  match v with
  | .vnull =>
      .error ("TypeError: Cannot read properties of null (reading "
        ++ name ++ ")")
  | .vundefined =>
      .error ("TypeError: Cannot read properties of undefined (reading "
        ++ name ++ ")")
  | .vobj fields =>
      .ok (match mapGet fields name with
        | some x => x
        | none => .vundefined)
  | _ => .ok .vundefined

/-- `typeof v === 'string'`. -/
def isStringV : RVal → Bool
  | .vstr _ => true
  | _ => false

/-- `Array.isArray(v)`. -/
def isArrayV : RVal → Bool
  | .varr _ => true
  | _ => false

/-- The body of the `every` callback in `validateProviderConfig`:
`typeof provider.provider === 'string' && typeof provider.base_url ===
'string' && Array.isArray(provider.settings)`, with JS short-circuiting. -/
def checkProviderEntry (p : RVal) : Except String Bool :=
  match jsGet p "provider" with
  | .error e => .error e
  | .ok pv =>
    if isStringV pv then
      match jsGet p "base_url" with
      | .error e => .error e
      | .ok bv =>
        if isStringV bv then
          match jsGet p "settings" with
          | .error e => .error e
          | .ok sv => .ok (isArrayV sv)
        else .ok false
    else .ok false

/-- `Array.prototype.every`: short-circuits on the first `false`, and a
thrown `TypeError` aborts the iteration. -/
def jsEvery (f : RVal → Except String Bool) : List RVal → Except String Bool
  | [] => .ok true
  | x :: xs =>
    match f x with
    | .error e => .error e
    | .ok true => jsEvery f xs
    | .ok false => .ok false

/-- `validateProviderConfig`: `false` when `config` is falsy or
`config.providers` is not an array, otherwise `every` element must have a
string `provider`, a string `base_url` and an array `settings`. -/
def validateProviderConfig (config : RVal) : Except String Bool :=
  if jsFalsy config then .ok false
  else
    match jsGet config "providers" with
    | .error e => .error e
    | .ok (.varr elems) => jsEvery checkProviderEntry elems
    | .ok _ => .ok false

/-- Field access on a value known to be an object (no `TypeError` case). -/
def objField (p : RVal) (name : String) : RVal :=
  match p with
  | .vobj fields =>
      match mapGet fields name with
      | some x => x
      | none => .vundefined
  | _ => .vundefined

/-- The shape check of one provider entry, for object elements (where
property access cannot throw). -/
def entryObjOk (p : RVal) : Bool :=
  isStringV (objField p "provider")
    && (isStringV (objField p "base_url") && isArrayV (objField p "settings"))

/-- The elements of `config.providers` (meaningful once validation has
established that it is an array). -/
def configProviders (config : RVal) : List RVal :=
  match config with
  | .vobj fields =>
      match mapGet fields "providers" with
      | some (.varr elems) => elems
      | _ => []
  | _ => []

/-- Decode a string field of a raw object, with the empty string standing
in where the field is not a string (unreachable for validated fields). -/
def decodeStringField (v : RVal) (name : String) : String :=
  match objField v name with
  | .vstr s => s
  | _ => ""

/-- Decode one `settings` entry. -/
def decodeSetting (v : RVal) : ProviderSetting :=
  { key := decodeStringField v "key"
    title := decodeStringField v "title"
    description := decodeStringField v "description"
    controller_type := decodeStringField v "controller_type" }

/-- Decode one `models` entry. -/
def decodeModel (v : RVal) : ModelInfo :=
  { id := decodeStringField v "id"
    name := decodeStringField v "name"
    version := decodeStringField v "version"
    description := decodeStringField v "description"
    capabilities :=
      match objField v "capabilities" with
      | .varr xs => xs.filterMap fun x =>
          match x with
          | .vstr s => some s
          | _ => none
      | _ => [] }

/-- Decode one `custom_header` entry. -/
def decodeHeader (v : RVal) : ProviderCustomHeader :=
  { header := decodeStringField v "header"
    value := decodeStringField v "value" }

/-- Bridge from a raw (validated) provider object to the typed template the
registry stores. The TypeScript code stores the raw object as-is under its
`ProviderTemplate` type; here the validated fields are transported exactly
and the optional fields are transported when well-typed. -/
def decodeTemplate (v : RVal) : ProviderTemplate :=
  { provider := decodeStringField v "provider"
    active :=
      match objField v "active" with
      | .vbool b => some b
      | _ => none
    api_key :=
      match objField v "api_key" with
      | .vstr s => some s
      | _ => none
    base_url := decodeStringField v "base_url"
    explore_models_url :=
      match objField v "explore_models_url" with
      | .vstr s => some s
      | _ => none
    settings :=
      match objField v "settings" with
      | .varr xs => xs.map decodeSetting
      | _ => []
    models :=
      match objField v "models" with
      | .varr xs => some (xs.map decodeModel)
      | _ => none
    persist :=
      match objField v "persist" with
      | .vbool b => some b
      | _ => none
    custom_header :=
      match objField v "custom_header" with
      | .varr xs => some (xs.map decodeHeader)
      | _ => none }

/-- `loadProvidersFromConfig`: validate, then either throw (`Except.error`,
with the registry untouched and no notification) or delegate the whole
bundle to `registerProviders`. -/
def loadProvidersFromConfig (thr : Nat → Bool) (config : RVal)
    (s : RegistryState) :
    Except String Unit × RegistryState × List NotifyBatch :=
  match validateProviderConfig config with
  | .error e => (.error e, s, [])
  | .ok false => (.error "Invalid provider configuration format", s, [])
  | .ok true =>
      let r := registerProviders thr ((configProviders config).map decodeTemplate) s
      (.ok (), r.1, r.2)

/-- The observable part of the `fetch` response `loadProvidersFromUrl`
awaits: HTTP success flag, status text, and the parsed JSON body. -/
structure HttpResponse where
  ok : Bool
  statusText : String
  body : RVal

/-- `loadProvidersFromUrl`: fail on a non-success HTTP status (naming the
URL and status text), otherwise validate and register the parsed body like
`loadProvidersFromConfig`. -/
def loadProvidersFromUrl (thr : Nat → Bool) (url : String)
    (resp : HttpResponse) (s : RegistryState) :
    Except String Unit × RegistryState × List NotifyBatch :=
  if resp.ok then loadProvidersFromConfig thr resp.body s
  else
    (.error ("Failed to fetch providers from " ++ url ++ ": "
      ++ resp.statusText), s, [])

/-! ### Lemmas about the validator -/

/-- Shape of the nested conditional produced by the entry check. -/
theorem ite_ok_and (a b c : Bool) :
    (if a then
        (if b then (Except.ok c : Except String Bool) else .ok false)
      else .ok false)
      = .ok (a && (b && c)) := by
  cases a <;> cases b <;> simp

/-- On an object element, the entry check cannot throw and agrees with the
pure shape predicate. -/
theorem checkProviderEntry_obj (fields : List (String × RVal)) :
    checkProviderEntry (RVal.vobj fields)
      = Except.ok (entryObjOk (RVal.vobj fields)) := by
  simp only [checkProviderEntry, entryObjOk, jsGet, objField]
  exact ite_ok_and _ _ _

/-- `every` over elements whose check cannot throw computes `List.all`. -/
theorem jsEvery_ok (f : RVal → Except String Bool) (g : RVal → Bool)
    (l : List RVal) (h : ∀ p ∈ l, f p = .ok (g p)) :
    jsEvery f l = .ok (l.all g) := by
  induction l with
  | nil => rfl
  | cons x xs ih =>
    simp only [jsEvery, List.all_cons]
    rw [h x (List.mem_cons_self x xs)]
    cases hgx : g x
    · simp
    · simpa using ih fun p hp => h p (List.mem_cons_of_mem x hp)

/-! ### Claim C1: load rejection is all-or-nothing with a fixed message -/

/-- Counterexample for C1: a bundle whose only element is `null` lacks a
string `provider`, yet the load fails with a `TypeError` from the property
access inside `every`, not with the message the claim requires. -/
theorem loadProvidersFromConfig_null_elem_counterexample :
    (loadProvidersFromConfig (fun _ => false)
        (RVal.vobj [("providers", RVal.varr [RVal.vnull])]) registryEmpty).1
      = Except.error
          "TypeError: Cannot read properties of null (reading provider)" ∧
    ¬("TypeError: Cannot read properties of null (reading provider)"
        = "Invalid provider configuration format") := by
  constructor
  · rfl
  · decide

/-- Claim C1 amended: whenever `loadProvidersFromConfig` fails — for any
reason — the registry is unchanged and no listener is notified
(all-or-nothing); whenever validation rejects (returns `false`: falsy
config, `providers` not an array, or some element an object failing the
field checks) the error message is exactly
`Invalid provider configuration format`. A `null` or `undefined` element
instead aborts validation with a `TypeError` carrying a different message
(still registering nothing). -/
theorem loadProvidersFromConfig_rejection (thr : Nat → Bool) (config : RVal)
    (s : RegistryState) :
    (∀ e, (loadProvidersFromConfig thr config s).1 = Except.error e →
      (loadProvidersFromConfig thr config s).2.1 = s ∧
      (loadProvidersFromConfig thr config s).2.2 = []) ∧
    (validateProviderConfig config = Except.ok false →
      (loadProvidersFromConfig thr config s).1
        = Except.error "Invalid provider configuration format") ∧
    (jsFalsy config = true → validateProviderConfig config = Except.ok false) ∧
    (∀ fields, config = RVal.vobj fields →
      (∀ elems, ¬mapGet fields "providers" = some (RVal.varr elems)) →
      validateProviderConfig config = Except.ok false) ∧
    (∀ fields elems, config = RVal.vobj fields →
      mapGet fields "providers" = some (RVal.varr elems) →
      (∀ p ∈ elems, ∃ pf, p = RVal.vobj pf) →
      validateProviderConfig config = Except.ok (elems.all entryObjOk)) := by
  refine ⟨?_, ?_, ?_, ?_, ?_⟩
  · intro e he
    cases hv : validateProviderConfig config with
    | error e' => simp [loadProvidersFromConfig, hv]
    | ok b =>
      cases b
      · simp [loadProvidersFromConfig, hv]
      · rw [loadProvidersFromConfig] at he
        simp [hv] at he
  · intro hv
    simp [loadProvidersFromConfig, hv]
  · intro hf
    rw [validateProviderConfig, if_pos hf]
  · intro fields hcfg hnone
    subst hcfg
    rw [validateProviderConfig, if_neg (by simp [jsFalsy])]
    simp only [jsGet]
    cases hm : mapGet fields "providers" with
    | none => simp [hm]
    | some x =>
      cases x <;> first
        | exact absurd hm (hnone _)
        | simp [hm]
  · intro fields elems hcfg hm hobj
    subst hcfg
    have hval : ∀ p ∈ elems, checkProviderEntry p = .ok (entryObjOk p) := by
      intro p hp
      rcases hobj p hp with ⟨pf, rfl⟩
      exact checkProviderEntry_obj pf
    rw [validateProviderConfig, if_neg (by simp [jsFalsy])]
    simp only [jsGet, hm]
    exact jsEvery_ok _ _ _ hval

/-- Witness for C1's amended theorem: a config object with no `providers`
field is rejected with exactly the canonical message and the registry
stays empty. -/
theorem loadProvidersFromConfig_rejection_witness :
    (loadProvidersFromConfig (fun _ => false) (RVal.vobj []) registryEmpty).1
      = Except.error "Invalid provider configuration format" ∧
    (loadProvidersFromConfig (fun _ => false) (RVal.vobj [])
        registryEmpty).2.1 = registryEmpty := by
  have ha := loadProvidersFromConfig_rejection (fun _ => false) (RVal.vobj [])
    registryEmpty
  have hval : validateProviderConfig (RVal.vobj []) = Except.ok false :=
    ha.2.2.2.1 [] rfl (by intro elems hm; simp [mapGet] at hm)
  exact ⟨ha.2.1 hval, (ha.1 _ (ha.2.1 hval)).1⟩

/-! ### Claim C10: every entry is keyed by its own template's provider -/

/-- Inserting a template under its own `provider` preserves the keying of
every entry. -/
theorem keyed_mapSet (m : List (String × ProviderTemplate))
    (v : ProviderTemplate) (h : ∀ p ∈ m, p.2.provider = p.1) :
    ∀ p ∈ mapSet m v.provider v, p.2.provider = p.1 := by
  intro p hp
  rw [mapSet] at hp
  by_cases hk : mapHas m v.provider = true
  · rw [if_pos hk] at hp
    rcases List.mem_map.mp hp with ⟨q, hq, hqe⟩
    by_cases hq1 : q.1 = v.provider
    · rw [if_pos hq1] at hqe
      rw [← hqe]
    · rw [if_neg hq1] at hqe
      rw [← hqe]
      exact h q hq
  · rw [if_neg hk] at hp
    rcases List.mem_append.mp hp with hp | hp
    · exact h p hp
    · rcases List.mem_singleton.mp hp with rfl
      rfl

/-- A whole batch registration preserves the keying of every entry. -/
theorem keyed_foldl (ts : List ProviderTemplate)
    (m : List (String × ProviderTemplate))
    (h : ∀ p ∈ m, p.2.provider = p.1) :
    ∀ p ∈ ts.foldl (fun acc t => mapSet acc t.provider t) m,
      p.2.provider = p.1 := by
  induction ts generalizing m with
  | nil => exact h
  | cons t ts ih =>
    simp only [List.foldl_cons]
    exact ih _ (keyed_mapSet m t h)

/-- Deleting preserves the keying of every entry. -/
theorem keyed_mapDelete (m : List (String × ProviderTemplate)) (k : String)
    (h : ∀ p ∈ m, p.2.provider = p.1) :
    ∀ p ∈ mapDelete m k, p.2.provider = p.1 := fun p hp =>
  h p (List.mem_of_mem_filter hp)

/-- When every entry is keyed by its own template, `getProvider` returns
only templates whose `provider` equals the requested name. -/
theorem keyed_getProvider (s : RegistryState)
    (h : ∀ p ∈ s.externalProviders, p.2.provider = p.1) :
    ∀ n t, getProvider s n = some t → t.provider = n := by
  intro n t hget
  rw [getProvider, mapGet] at hget
  cases hfind : s.externalProviders.find? fun p => decide (p.1 = n) with
  | none => rw [hfind] at hget; simp at hget
  | some q =>
    rw [hfind] at hget
    simp at hget
    have hq1 : q.1 = n := by simpa using List.find?_some hfind
    have hqm : q ∈ s.externalProviders := List.mem_of_find?_eq_some hfind
    rw [← hget, h q hqm, hq1]

/-- Claim C10: the keying invariant — every stored entry is keyed by its
own template's `provider` field — is preserved by all six mutating
operations; consequently `getProvider n` only returns templates `t` with
`t.provider = n`, and `hasProvider n` holds exactly when `getProvider n`
returns a template. -/
theorem registry_keyed_invariant (thr : Nat → Bool) (t : ProviderTemplate)
    (ts : List ProviderTemplate) (name url : String) (config : RVal)
    (resp : HttpResponse) (s : RegistryState)
    (hs : ∀ p ∈ s.externalProviders, p.2.provider = p.1) :
    (∀ p ∈ (registerProvider thr t s).1.externalProviders,
      p.2.provider = p.1) ∧
    (∀ p ∈ (registerProviders thr ts s).1.externalProviders,
      p.2.provider = p.1) ∧
    (∀ p ∈ (loadProvidersFromConfig thr config s).2.1.externalProviders,
      p.2.provider = p.1) ∧
    (∀ p ∈ (loadProvidersFromUrl thr url resp s).2.1.externalProviders,
      p.2.provider = p.1) ∧
    (∀ p ∈ (unregisterProvider thr name s).1.externalProviders,
      p.2.provider = p.1) ∧
    (∀ p ∈ (clearAll thr s).1.externalProviders, p.2.provider = p.1) ∧
    (∀ n t', getProvider s n = some t' → t'.provider = n) ∧
    (∀ n, hasProvider s n = (getProvider s n).isSome) := by
  have hconfig : ∀ c : RVal,
      ∀ p ∈ (loadProvidersFromConfig thr c s).2.1.externalProviders,
        p.2.provider = p.1 := by
    intro c
    cases hv : validateProviderConfig c with
    | error e => simpa [loadProvidersFromConfig, hv] using hs
    | ok b =>
      cases b
      · simpa [loadProvidersFromConfig, hv] using hs
      · simp only [loadProvidersFromConfig, hv, registerProviders]
        exact keyed_foldl _ _ hs
  refine ⟨?_, ?_, hconfig config, ?_, ?_, ?_, keyed_getProvider s hs, ?_⟩
  · exact keyed_mapSet s.externalProviders t hs
  · exact keyed_foldl ts s.externalProviders hs
  · rw [loadProvidersFromUrl]
    by_cases hok : resp.ok = true
    · rw [if_pos hok]
      exact hconfig resp.body
    · rw [if_neg hok]
      exact hs
  · exact keyed_mapDelete s.externalProviders name hs
  · intro p hp
    simp [clearAll] at hp
  · intro n
    exact mapHas_eq_isSome_mapGet s.externalProviders n

/-- Witness for C10 at a one-entry registry holding `tmplA` under its own
key. -/
theorem registry_keyed_invariant_witness :
    (∀ p ∈ (registerProvider (fun _ => false) tmplB
        (registerProvider (fun _ => false) tmplA
          registryEmpty).1).1.externalProviders,
      p.2.provider = p.1) ∧
    (∀ p ∈ (registerProviders (fun _ => false) [tmplB]
        (registerProvider (fun _ => false) tmplA
          registryEmpty).1).1.externalProviders,
      p.2.provider = p.1) ∧
    (∀ p ∈ (loadProvidersFromConfig (fun _ => false) (RVal.vobj [])
        (registerProvider (fun _ => false) tmplA
          registryEmpty).1).2.1.externalProviders,
      p.2.provider = p.1) ∧
    (∀ p ∈ (loadProvidersFromUrl (fun _ => false) "https://u.example"
        ⟨false, "Not Found", RVal.vnull⟩
        (registerProvider (fun _ => false) tmplA
          registryEmpty).1).2.1.externalProviders,
      p.2.provider = p.1) ∧
    (∀ p ∈ (unregisterProvider (fun _ => false) "p"
        (registerProvider (fun _ => false) tmplA
          registryEmpty).1).1.externalProviders,
      p.2.provider = p.1) ∧
    (∀ p ∈ (clearAll (fun _ => false)
        (registerProvider (fun _ => false) tmplA
          registryEmpty).1).1.externalProviders,
      p.2.provider = p.1) ∧
    (∀ n t', getProvider (registerProvider (fun _ => false) tmplA
        registryEmpty).1 n = some t' → t'.provider = n) ∧
    (∀ n, hasProvider (registerProvider (fun _ => false) tmplA
          registryEmpty).1 n
      = (getProvider (registerProvider (fun _ => false) tmplA
          registryEmpty).1 n).isSome) :=
  registry_keyed_invariant (fun _ => false) tmplB [tmplB] "p"
    "https://u.example" (RVal.vobj []) ⟨false, "Not Found", RVal.vnull⟩
    (registerProvider (fun _ => false) tmplA registryEmpty).1
    (by decide)

/-! ### Generation service wrappers (`pollinations.ts`, `imgbb.ts`)

The wrappers are embedded up to the network boundary: what is proved is
which query parameters / form fields a call serializes and which URL it
targets. Numeric option fields are modelled as integers. -/

/-- `ImageGenerationOptions`; each `Option` marks presence of the field. -/
structure ImageGenerationOptions where
  model : Option String := none
  width : Option Int := none
  height : Option Int := none
  seed : Option Int := none
  enhance : Option Bool := none
  negative_prompt : Option String := none
  nologo : Option Bool := none
  safe : Option Bool := none
  quality : Option String := none
  transparent : Option Bool := none
  guidance_scale : Option Int := none
deriving DecidableEq

/-- JS truthiness of a possibly-absent string field (`undefined` and the
empty string are falsy). -/
def optTruthyStr : Option String → Bool
  | some s => decide (¬s = "")
  | none => false

/-- JS truthiness of a possibly-absent number field (`undefined` and `0`
are falsy). -/
def optTruthyInt : Option Int → Bool
  | some n => decide (¬n = 0)
  | none => false

/-- JS truthiness of a possibly-absent boolean field. -/
def optTruthyBool : Option Bool → Bool
  | some b => b
  | none => false

/-- One `if (options.f) params.append(k, options.f)` segment, string
field. -/
def segStr (k : String) (v : Option String) : List (String × String) :=
  if optTruthyStr v then [(k, v.getD "")] else []

/-- One `if (options.f) params.append(k, options.f.toString())` segment,
numeric field. -/
def segInt (k : String) (v : Option Int) : List (String × String) :=
  if optTruthyInt v then [(k, toString (v.getD 0))] else []

/-- One `if (options.f) params.append(k, 'true')` segment, boolean
field. -/
def segFlag (k : String) (v : Option Bool) : List (String × String) :=
  if optTruthyBool v then [(k, "true")] else []

/-- The query parameters `PollinationsService.generateImage` appends, in
source order. -/
def imageParams (o : ImageGenerationOptions) : List (String × String) :=
  segStr "model" o.model ++ segInt "width" o.width
    ++ segInt "height" o.height ++ segInt "seed" o.seed
    ++ segFlag "enhance" o.enhance
    ++ segStr "negative_prompt" o.negative_prompt
    ++ segFlag "nologo" o.nologo ++ segFlag "safe" o.safe
    ++ segStr "quality" o.quality ++ segFlag "transparent" o.transparent
    ++ segInt "guidance_scale" o.guidance_scale

/-- `ImgBBUploadOptions`. -/
structure ImgBBUploadOptions where
  name : Option String := none
  expiration : Option Int := none
deriving DecidableEq

/-- The `file` argument of `uploadFile`: a `File` (carried as the base64
payload `fileToBase64` produces) or an already-encoded base64 string. -/
inductive UploadSource where
  | file : String → UploadSource
  | str : String → UploadSource
deriving DecidableEq

/-- The value appended as the `image` form field. -/
def uploadImageField : UploadSource → String
  | .file b => b
  | .str s => s

/-- The multipart form `uploadFile` builds, in source order: `key`,
`image`, then `name` and `expiration` under truthiness guards. -/
def uploadForm (apiKey : String) (source : UploadSource)
    (o : ImgBBUploadOptions) : List (String × String) :=
  [("key", apiKey), ("image", uploadImageField source)]
    ++ segStr "name" o.name ++ segInt "expiration" o.expiration

/-- The configuration held by the `ImgBBService` singleton. -/
structure ImgBBServiceState where
  apiKey : String
  baseUrl : String
deriving DecidableEq

/-- The constructor: `apiKey` from the environment variable (falling back
to the empty string), `baseUrl` fixed. -/
def imgBBInit (envKey : Option String) : ImgBBServiceState :=
  { apiKey := envKey.getD ""
    baseUrl := "https://api.imgbb.com/1/upload" }

/-- `isConfigured`: `!!this.apiKey`. -/
def isConfigured (svc : ImgBBServiceState) : Bool :=
  decide (¬svc.apiKey = "")

/-- `setApiKey`. -/
def setApiKey (svc : ImgBBServiceState) (k : String) : ImgBBServiceState :=
  { svc with apiKey := k }

/-- The HTTP request an upload call issues. -/
structure UploadRequest where
  url : String
  httpMethod : String
  form : List (String × String)
deriving DecidableEq

/-- `uploadFile` up to the network boundary: with no credential it fails
with the configuration error before any request is built or issued;
otherwise it POSTs the form. The source issues `fetch(this.apiKey, …)`,
so the request URL is the `apiKey` string, not `this.baseUrl`. -/
def uploadFile (svc : ImgBBServiceState) (source : UploadSource)
    (o : ImgBBUploadOptions) : Except String UploadRequest :=
  if svc.apiKey = "" then .error "ImgBB API key is not configured"
  else
    .ok { url := svc.apiKey
          httpMethod := "POST"
          form := uploadForm svc.apiKey source o }

/-! ### Claim C7: presence vs truthiness in option serialization -/

/-- Image options whose present fields are all falsy: `seed = 0`,
`enhance = false`, `negative_prompt = ""`. -/
def optionsAllFalsy : ImageGenerationOptions :=
  { seed := some 0, enhance := some false, negative_prompt := some "" }

/-- Upload options with a present but falsy `expiration = 0`. -/
def uploadZeroExpiration : ImgBBUploadOptions :=
  { expiration := some 0 }

/-- Counterexample for C7: `seed = 0`, `enhance = false` and an empty
`negative_prompt` are present yet serialized into no query parameter at
all, and a present `expiration = 0` is omitted from the upload form:
inclusion is decided by truthiness, not presence. -/
theorem options_falsy_omitted_counterexample :
    imageParams optionsAllFalsy = [] ∧
    List.lookup "seed" (imageParams optionsAllFalsy) = none ∧
    uploadForm "k" (UploadSource.str "img") uploadZeroExpiration
      = [("key", "k"), ("image", "img")] ∧
    List.lookup "expiration"
        (uploadForm "k" (UploadSource.str "img") uploadZeroExpiration)
      = none := by
  refine ⟨?_, ?_, ?_, ?_⟩ <;> rfl

/-- A string-field segment contributes its key iff the field is truthy. -/
theorem mem_segStr (k key : String) (v : Option String) :
    key ∈ (segStr k v).map Prod.fst ↔ (key = k ∧ optTruthyStr v = true) := by
  rw [segStr]
  by_cases h : optTruthyStr v = true <;> simp [h]

/-- A numeric-field segment contributes its key iff the field is truthy. -/
theorem mem_segInt (k key : String) (v : Option Int) :
    key ∈ (segInt k v).map Prod.fst ↔ (key = k ∧ optTruthyInt v = true) := by
  rw [segInt]
  by_cases h : optTruthyInt v = true <;> simp [h]

/-- A boolean-flag segment contributes its key iff the field is truthy. -/
theorem mem_segFlag (k key : String) (v : Option Bool) :
    key ∈ (segFlag k v).map Prod.fst ↔ (key = k ∧ optTruthyBool v = true) := by
  rw [segFlag]
  by_cases h : optTruthyBool v = true <;> simp [h]

/-- Claim C7 amended: for every options structure, each optional field is
serialized into the request exactly when it is present **and truthy**;
absent fields and present-but-falsy fields (`0`, `false`, the empty
string) are omitted alike. Stated for every query parameter of
`generateImage` and for the optional form fields of `uploadFile`. -/
theorem optional_field_serialization (o : ImageGenerationOptions)
    (apiKey : String) (source : UploadSource) (u : ImgBBUploadOptions) :
    ("model" ∈ (imageParams o).map Prod.fst ↔ optTruthyStr o.model = true) ∧
    ("width" ∈ (imageParams o).map Prod.fst ↔ optTruthyInt o.width = true) ∧
    ("height" ∈ (imageParams o).map Prod.fst ↔ optTruthyInt o.height = true) ∧
    ("seed" ∈ (imageParams o).map Prod.fst ↔ optTruthyInt o.seed = true) ∧
    ("enhance" ∈ (imageParams o).map Prod.fst
      ↔ optTruthyBool o.enhance = true) ∧
    ("negative_prompt" ∈ (imageParams o).map Prod.fst
      ↔ optTruthyStr o.negative_prompt = true) ∧
    ("nologo" ∈ (imageParams o).map Prod.fst
      ↔ optTruthyBool o.nologo = true) ∧
    ("safe" ∈ (imageParams o).map Prod.fst ↔ optTruthyBool o.safe = true) ∧
    ("quality" ∈ (imageParams o).map Prod.fst
      ↔ optTruthyStr o.quality = true) ∧
    ("transparent" ∈ (imageParams o).map Prod.fst
      ↔ optTruthyBool o.transparent = true) ∧
    ("guidance_scale" ∈ (imageParams o).map Prod.fst
      ↔ optTruthyInt o.guidance_scale = true) ∧
    ("name" ∈ (uploadForm apiKey source u).map Prod.fst
      ↔ optTruthyStr u.name = true) ∧
    ("expiration" ∈ (uploadForm apiKey source u).map Prod.fst
      ↔ optTruthyInt u.expiration = true) := by
  simp only [imageParams, uploadForm, List.map_append, List.mem_append,
    mem_segStr, mem_segInt, mem_segFlag, List.map_cons, List.map_nil,
    List.mem_cons, List.mem_singleton]
  simp

/-! ### Claim C8: the upload POST target -/

/-- The upload request of a configured service goes to the string held in
`apiKey` — `fetch(this.apiKey, …)` — and not to the configured upload URL
`https://api.imgbb.com/1/upload` that `baseUrl` holds (and which nothing
reads). Evaluated at a concrete configured service. -/
theorem uploadFile_targets_api_key_not_base_url :
    uploadFile (imgBBInit (some "testkey")) (UploadSource.str "payload")
        { name := none, expiration := none }
      = Except.ok
          { url := "testkey"
            httpMethod := "POST"
            form := [("key", "testkey"), ("image", "payload")] } ∧
    ¬("testkey" = (imgBBInit (some "testkey")).baseUrl) := by
  refine ⟨rfl, by decide⟩

/-! ### Claim C9: unconfigured upload fails before any request -/

/-- Claim C9: whenever the wrapper holds no credential
(`isConfigured = false`), `uploadFile` fails with the configuration error
and no request value is ever produced — the failure happens before the
network boundary. -/
theorem uploadFile_unconfigured_fails (svc : ImgBBServiceState)
    (source : UploadSource) (o : ImgBBUploadOptions)
    (h : isConfigured svc = false) :
    uploadFile svc source o
      = Except.error "ImgBB API key is not configured" := by
  have hk : svc.apiKey = "" := by
    simpa [isConfigured] using h
  rw [uploadFile, if_pos hk]

/-- Witness for C9: the service constructed with no environment key. -/
theorem uploadFile_unconfigured_fails_witness :
    uploadFile (imgBBInit none) (UploadSource.str "payload")
        { name := none, expiration := none }
      = Except.error "ImgBB API key is not configured" :=
  uploadFile_unconfigured_fails (imgBBInit none) (UploadSource.str "payload")
    { name := none, expiration := none } (by decide)

end Jane
